import Mathlib

/-!
Formal model of the chat client in `src/ChatPage.jsx`.

The component keeps five pieces of state (`sessionId`, `messages`, `input`,
`loading`, `error`).  `handleSend` performs an optimistic update with
rollback around a `POST /api/chat` request and drives a character-by-character
typing animation (`typeNextChar`); `handleResetSession` clears the session.

The network is modelled by an explicit outcome value: the request either
throws (`exn`), returns a non-success HTTP status (`httpError status`), or
succeeds with a parsed body whose `history` field is either absent/null
(`ok none`) or a transcript (`ok (some h)`).  `handleSend` computes the
settled state once every callback (including all animation ticks) has run;
`sendTrace` lists, in order, every transcript passed to `setMessages`
during the operation, so that intermediate displayed states can be
reasoned about.
-/

/-- A chat message as on the wire: `{ role, content }`. -/
structure Message where
  role : String
  content : String
deriving DecidableEq, Repr

/-- The ordered transcript of messages (display order = list order). -/
abbrev Transcript := List Message

/-- The component state held in React `useState` hooks. -/
structure ChatState where
  sessionId : String
  messages : Transcript
  input : String
  loading : Bool
  error : String
deriving DecidableEq, Repr

/-- Outcome of the `POST /api/chat` round trip: a thrown exception
(network failure or unparsable body), a non-success HTTP status, or a
success whose parsed body carries an optional `history` array
(`none` models a missing or null field, which is falsy in JS;
an empty array is truthy and is modelled as `some []`). -/
inductive FetchOutcome where
  | exn : FetchOutcome
  | httpError : Nat → FetchOutcome
  | ok : Option Transcript → FetchOutcome
deriving DecidableEq, Repr

/-- The distinguished HTTP 503 error message shown by `handleSend`. -/
def overloadErrorMsg : String :=
  "Gemini API is overloaded. Please try again in a few seconds."

/-- The generic error message for other non-success HTTP statuses. -/
def genericErrorMsg : String := "Something went wrong. Please try again."

/-- The error message set when the request throws. -/
def networkErrorMsg : String := "Network error. Please try again."

/-- The optimistic user message `{ role: "user", content: input }`
(note: the raw input, not its trimmed form). -/
def userMsg (input : String) : Message := ⟨"user", input⟩

/-- JS `String.prototype.trim`: strip whitespace from both ends. -/
def jsTrim (s : String) : String :=
  String.mk (((s.data.dropWhile Char.isWhitespace).reverse.dropWhile
    Char.isWhitespace).reverse)

/-- The early-return guard of `handleSend`:
`if (!input.trim() || !sessionId) return;` (a JS string is falsy iff empty). -/
def sendBlocked (s : ChatState) : Bool :=
  jsTrim s.input == "" || s.sessionId == ""

/-- The in-progress assistant text after `n` animation ticks: the first `n`
characters of the target text (`typedBot.content += fullText[index]`
repeated `n` times from the empty string). -/
def typedContent (fullText : String) (n : Nat) : String :=
  String.mk (fullText.data.take n)

/-- All intermediate `setMessages` arguments produced by the ticks of
`typeNextChar`: at tick `i` (0-based) the transcript is the optimistic
transcript plus the in-progress assistant message holding the first `i + 1`
characters of the target text. -/
def typingStates (optimistic : Transcript) (fullText : String) :
    List Transcript :=
  (List.range fullText.data.length).map
    (fun i => optimistic ++ [⟨"assistant", typedContent fullText (i + 1)⟩])

/-- The settled component state after `handleSend` and every callback it
scheduled (including all animation ticks) have run, as a function of the
request outcome.  Mirrors `handleSend` in `ChatPage.jsx` line by line:
guard, snapshot, optimistic append, then the non-ok rollback branch, the
no-assistant branch (`!lastBot || lastBot.role !== "assistant"`), the
animation branch (which ends in `setMessages(fullHistory)` and clears the
input), and the catch branch; the `finally` clears `loading`. -/
def handleSend (s : ChatState) (o : FetchOutcome) : ChatState :=
  if sendBlocked s then s
  else
    let previousMessages := s.messages
    let optimistic := s.messages ++ [userMsg s.input]
    match o with
    | .exn =>
        { s with messages := previousMessages, loading := false,
                 error := networkErrorMsg }
    | .httpError status =>
        { s with messages := previousMessages, loading := false,
                 error := if status = 503 then overloadErrorMsg
                          else genericErrorMsg }
    | .ok history =>
        let fullHistory := history.getD optimistic
        match fullHistory.getLast? with
        | none =>
            { s with messages := fullHistory, loading := false, error := "" }
        | some lastBot =>
            if lastBot.role = "assistant" then
              { s with messages := fullHistory, input := "",
                       loading := false, error := "" }
            else
              { s with messages := fullHistory, loading := false,
                       error := "" }

/-- Every transcript passed to `setMessages` during one `handleSend`
operation, in call order: the optimistic transcript first, then either the
rollback, the as-is authoritative transcript, or the seeded animation
(empty assistant bubble, one state per tick, final authoritative
transcript). -/
def sendTrace (s : ChatState) (o : FetchOutcome) : List Transcript :=
  if sendBlocked s then []
  else
    let previousMessages := s.messages
    let optimistic := s.messages ++ [userMsg s.input]
    match o with
    | .exn => [optimistic, previousMessages]
    | .httpError _ => [optimistic, previousMessages]
    | .ok history =>
        let fullHistory := history.getD optimistic
        match fullHistory.getLast? with
        | none => [optimistic, fullHistory]
        | some lastBot =>
            if lastBot.role = "assistant" then
              optimistic :: (optimistic ++ [⟨"assistant", ""⟩]) ::
                (typingStates optimistic lastBot.content ++ [fullHistory])
            else [optimistic, fullHistory]

/-- The backend's authoritative transcript as the client knows it once the
outcome `o` has been processed: on success, the code takes
`data.history || optimistic` as authoritative; on any failure the
pre-call transcript remains authoritative. -/
def authoritativeAfter (s : ChatState) (o : FetchOutcome) : Transcript :=
  match o with
  | .ok history => history.getD (s.messages ++ [userMsg s.input])
  | _ => s.messages

/-- Whether `handleSend` starts the typing animation for state `s` and
outcome `o`: the guard passes, the request succeeds, and the last entry of
the resulting `fullHistory` is an assistant message. -/
def animationRuns (s : ChatState) (o : FetchOutcome) : Bool :=
  if sendBlocked s then false
  else
    match o with
    | .ok history =>
        match (history.getD (s.messages ++ [userMsg s.input])).getLast? with
        | some m => m.role == "assistant"
        | none => false
    | _ => false

/-- Outcome of the best-effort `POST /api/session/{id}/clear` request. -/
inductive ClearOutcome where
  | ok : ClearOutcome
  | failed : ClearOutcome
deriving DecidableEq, Repr

/-- `Math.floor(100000 + Math.random() * 900000).toString()`: with
`Math.random()` modelled by a draw `k < 900000`, the generated id is the
decimal string of `100000 + k`. -/
def newSessionId (k : Nat) : String := toString (100000 + k)

/-- `handleResetSession`: best-effort backend clear (its outcome is
ignored), then generate a fresh id, persist it (the returned
`Option String` is the `localStorage` slot after the call, replacing
`store`), set it, and clear transcript and error.  `input` and `loading`
are untouched. -/
def handleResetSession (s : ChatState) (_store : Option String)
    (_o : ClearOutcome) (k : Nat) : ChatState × Option String :=
  let newId := newSessionId k
  ({ s with sessionId := newId, messages := [], error := "" }, some newId)

/-- A 6-digit numeric session id: the decimal representation of a natural
number in `[100000, 999999]`. -/
def sixDigitNumeric (str : String) : Prop :=
  ∃ n : Nat, 100000 ≤ n ∧ n < 1000000 ∧ str = toString n

example :
    (handleSend ⟨"123456", [], "hi", false, ""⟩ (.ok none)).messages
      = [userMsg "hi"] := by decide

example :
    (handleSend ⟨"123456", [], "hi", false, ""⟩ (.ok (some []))).input
      = "hi" := by decide

example :
    sendTrace ⟨"123456", [], "hi", false, ""⟩
        (.ok (some [⟨"user", "hi"⟩, ⟨"assistant", "ok"⟩]))
      = [[⟨"user", "hi"⟩],
         [⟨"user", "hi"⟩, ⟨"assistant", ""⟩],
         [⟨"user", "hi"⟩, ⟨"assistant", "o"⟩],
         [⟨"user", "hi"⟩, ⟨"assistant", "ok"⟩],
         [⟨"user", "hi"⟩, ⟨"assistant", "ok"⟩]] := by decide

example :
    handleSend ⟨"123456", [], "  ", false, "old"⟩ .exn
      = ⟨"123456", [], "  ", false, "old"⟩ := by decide

/-- C5: when the input is blank/whitespace-only or no session id is active,
`handleSend` is a no-op — the whole state (transcript, error, loading,
input, session) is unchanged whatever the network outcome would have been,
and no `setMessages` call (hence no request processing) occurs. -/
theorem C5_blocked_send_noop (s : ChatState) (o : FetchOutcome)
    (h : sendBlocked s = true) :
    handleSend s o = s ∧ sendTrace s o = [] := by
  simp [handleSend, sendTrace, h]

theorem C5_blocked_send_noop_witness :
    handleSend ⟨"123456", [], "   ", true, "oops"⟩ .exn
        = ⟨"123456", [], "   ", true, "oops"⟩
    ∧ sendTrace ⟨"123456", [], "   ", true, "oops"⟩ .exn = [] :=
  C5_blocked_send_noop ⟨"123456", [], "   ", true, "oops"⟩ .exn (by decide)

/-- C6: `handleResetSession` always yields an empty transcript, an empty
error, and a fresh 6-digit numeric session id that is persisted (the
storage slot afterwards holds exactly the new id) and replaces the
previous one, independently of the backend clear outcome. -/
theorem C6_reset_postcondition (s : ChatState) (store : Option String)
    (o : ClearOutcome) (k : Nat) (hk : k < 900000) :
    (handleResetSession s store o k).1.messages = []
    ∧ (handleResetSession s store o k).1.error = ""
    ∧ (handleResetSession s store o k).1.sessionId = newSessionId k
    ∧ (handleResetSession s store o k).2 = some (newSessionId k)
    ∧ sixDigitNumeric (newSessionId k)
    ∧ handleResetSession s store .ok k = handleResetSession s store .failed k :=
  ⟨rfl, rfl, rfl, rfl, ⟨100000 + k, by omega, by omega, rfl⟩, rfl⟩

theorem C6_reset_postcondition_witness :
    (handleResetSession ⟨"111111", [userMsg "x"], "q", true, "err"⟩ (some "111111")
        ClearOutcome.failed 23456).1.messages = []
    ∧ (handleResetSession ⟨"111111", [userMsg "x"], "q", true, "err"⟩ (some "111111")
        ClearOutcome.failed 23456).1.error = ""
    ∧ (handleResetSession ⟨"111111", [userMsg "x"], "q", true, "err"⟩ (some "111111")
        ClearOutcome.failed 23456).1.sessionId = newSessionId 23456
    ∧ (handleResetSession ⟨"111111", [userMsg "x"], "q", true, "err"⟩ (some "111111")
        ClearOutcome.failed 23456).2 = some (newSessionId 23456)
    ∧ sixDigitNumeric (newSessionId 23456)
    ∧ handleResetSession ⟨"111111", [userMsg "x"], "q", true, "err"⟩ (some "111111")
        ClearOutcome.ok 23456
      = handleResetSession ⟨"111111", [userMsg "x"], "q", true, "err"⟩ (some "111111")
        ClearOutcome.failed 23456 :=
  C6_reset_postcondition ⟨"111111", [userMsg "x"], "q", true, "err"⟩
    (some "111111") ClearOutcome.failed 23456 (by decide)

/-- C9: on a success whose body has no `history` field, the transcript
settles to the optimistic transcript (pre-call transcript plus the one
user message), loading is cleared, and the trace shows no animation tick
(only the optimistic render and the settling render, both equal). -/
theorem C9_missing_history (s : ChatState) (h : sendBlocked s = false) :
    (handleSend s (.ok none)).messages = s.messages ++ [userMsg s.input]
    ∧ (handleSend s (.ok none)).loading = false
    ∧ sendTrace s (.ok none)
        = [s.messages ++ [userMsg s.input], s.messages ++ [userMsg s.input]] := by
  have hl : (s.messages ++ [userMsg s.input]).getLast? = some (userMsg s.input) :=
    List.getLast?_concat _
  simp [handleSend, sendTrace, h, hl, userMsg]

theorem C9_missing_history_witness :
    (handleSend ⟨"123456", [], "hi", false, ""⟩ (.ok none)).messages
        = [] ++ [userMsg "hi"]
    ∧ (handleSend ⟨"123456", [], "hi", false, ""⟩ (.ok none)).loading = false
    ∧ sendTrace ⟨"123456", [], "hi", false, ""⟩ (.ok none)
        = [[] ++ [userMsg "hi"], [] ++ [userMsg "hi"]] :=
  C9_missing_history ⟨"123456", [], "hi", false, ""⟩ (by decide)

/-- C7: on a success whose response transcript is empty or does not end in
an assistant message, the client displays that transcript as-is, clears
loading, and performs no typing animation (the trace is just the
optimistic render followed by the authoritative transcript). -/
theorem C7_success_without_assistant (s : ChatState) (hist : Transcript)
    (h : sendBlocked s = false)
    (hl : hist = [] ∨ ∃ m, hist.getLast? = some m ∧ m.role ≠ "assistant") :
    (handleSend s (.ok (some hist))).messages = hist
    ∧ (handleSend s (.ok (some hist))).loading = false
    ∧ sendTrace s (.ok (some hist)) = [s.messages ++ [userMsg s.input], hist] := by
  rcases hl with rfl | ⟨m, hm, hr⟩
  · simp [handleSend, sendTrace, h]
  · simp [handleSend, sendTrace, h, hm, hr]

theorem C7_success_without_assistant_witness :
    (handleSend ⟨"123456", [], "hi", false, ""⟩
        (.ok (some [⟨"user", "hi"⟩]))).messages = [⟨"user", "hi"⟩]
    ∧ (handleSend ⟨"123456", [], "hi", false, ""⟩
        (.ok (some [⟨"user", "hi"⟩]))).loading = false
    ∧ sendTrace ⟨"123456", [], "hi", false, ""⟩ (.ok (some [⟨"user", "hi"⟩]))
        = [[] ++ [userMsg "hi"], [⟨"user", "hi"⟩]] :=
  C7_success_without_assistant ⟨"123456", [], "hi", false, ""⟩
    [⟨"user", "hi"⟩] (by decide)
    (Or.inr ⟨⟨"user", "hi"⟩, by decide, by decide⟩)

/-- C4: on any failed request the transcript is rolled back to its
pre-call snapshot, loading is false afterwards, the input is unchanged, no
animation tick occurs, and the error is the distinguished overload message
exactly when the status is 503, the generic message for other HTTP
failures, and the network message when the request throws. -/
theorem C4_failure_rollback (s : ChatState) (status : Nat)
    (h : sendBlocked s = false) :
    handleSend s (.httpError status)
        = { s with loading := false,
                   error := if status = 503 then overloadErrorMsg
                            else genericErrorMsg }
    ∧ handleSend s .exn = { s with loading := false, error := networkErrorMsg }
    ∧ sendTrace s (.httpError status)
        = [s.messages ++ [userMsg s.input], s.messages]
    ∧ sendTrace s .exn = [s.messages ++ [userMsg s.input], s.messages] := by
  simp [handleSend, sendTrace, h]

theorem C4_failure_rollback_witness :
    handleSend ⟨"123456", [userMsg "a"], "hi", true, ""⟩ (.httpError 503)
        = { sessionId := "123456", messages := [userMsg "a"], input := "hi",
            loading := false,
            error := if 503 = 503 then overloadErrorMsg else genericErrorMsg }
    ∧ handleSend ⟨"123456", [userMsg "a"], "hi", true, ""⟩ .exn
        = { sessionId := "123456", messages := [userMsg "a"], input := "hi",
            loading := false, error := networkErrorMsg }
    ∧ sendTrace ⟨"123456", [userMsg "a"], "hi", true, ""⟩ (.httpError 503)
        = [[userMsg "a"] ++ [userMsg "hi"], [userMsg "a"]]
    ∧ sendTrace ⟨"123456", [userMsg "a"], "hi", true, ""⟩ .exn
        = [[userMsg "a"] ++ [userMsg "hi"], [userMsg "a"]] :=
  C4_failure_rollback ⟨"123456", [userMsg "a"], "hi", true, ""⟩ 503 (by decide)

/-- C1: every transcript displayed during a send operation is the pre-call
authoritative transcript, that transcript plus the optimistic user
message, that plus one partially-typed assistant message, or the
authoritative transcript after the response is processed; and after any
failed request settles the displayed transcript equals the pre-call
authoritative transcript again. -/
theorem C1_transcript_invariant (s : ChatState) (o : FetchOutcome) :
    (∀ t ∈ sendTrace s o,
        t = s.messages
        ∨ t = s.messages ++ [userMsg s.input]
        ∨ (∃ typed : String,
            t = s.messages ++ [userMsg s.input, ⟨"assistant", typed⟩])
        ∨ t = authoritativeAfter s o)
    ∧ (handleSend s .exn).messages = s.messages
    ∧ ∀ status, (handleSend s (.httpError status)).messages = s.messages := by
  refine ⟨?_, ?_, ?_⟩
  · intro t ht
    by_cases hb : sendBlocked s = true
    · simp [sendTrace, hb] at ht
    · simp only [Bool.not_eq_true] at hb
      cases o with
      | exn =>
        simp [sendTrace, hb] at ht
        rcases ht with rfl | rfl
        · exact Or.inr (Or.inl rfl)
        · exact Or.inl rfl
      | httpError status =>
        simp [sendTrace, hb] at ht
        rcases ht with rfl | rfl
        · exact Or.inr (Or.inl rfl)
        · exact Or.inl rfl
      | ok history =>
        rcases hgl : (history.getD (s.messages ++ [userMsg s.input])).getLast?
          with _ | m
        · simp [sendTrace, hb, hgl] at ht
          rcases ht with rfl | rfl
          · exact Or.inr (Or.inl rfl)
          · exact Or.inr (Or.inr (Or.inr (by simp [authoritativeAfter])))
        · by_cases hr : m.role = "assistant"
          · simp [sendTrace, hb, hgl, hr, typingStates] at ht
            rcases ht with rfl | rfl | ⟨i, hi, rfl⟩ | rfl
            · exact Or.inr (Or.inl rfl)
            · exact Or.inr (Or.inr (Or.inl ⟨"", by simp⟩))
            · exact Or.inr (Or.inr (Or.inl
                ⟨typedContent m.content (i + 1), by simp⟩))
            · exact Or.inr (Or.inr (Or.inr (by simp [authoritativeAfter])))
          · simp [sendTrace, hb, hgl, hr] at ht
            rcases ht with rfl | rfl
            · exact Or.inr (Or.inl rfl)
            · exact Or.inr (Or.inr (Or.inr (by simp [authoritativeAfter])))
  · by_cases hb : sendBlocked s = true <;> simp [handleSend, hb]
  · intro status
    by_cases hb : sendBlocked s = true <;> simp [handleSend, hb]

theorem C1_transcript_invariant_witness :
    [userMsg "hi"] = ([] : Transcript)
    ∨ [userMsg "hi"] = [] ++ [userMsg "hi"]
    ∨ (∃ typed : String,
        [userMsg "hi"] = [] ++ [userMsg "hi", ⟨"assistant", typed⟩])
    ∨ [userMsg "hi"] = authoritativeAfter ⟨"123456", [], "hi", false, ""⟩ .exn :=
  (C1_transcript_invariant ⟨"123456", [], "hi", false, ""⟩ .exn).1
    [userMsg "hi"] (by decide)

/-- C2 as stated is false: on a success whose body has no `history` field
the transcript settles to the pre-call value plus only the user message —
a success that is neither a user+assistant pair extension nor equal to the
pre-call transcript. -/
theorem C2_settles_pair_counterexample :
    (handleSend ⟨"123456", [], "hi", false, ""⟩ (.ok none)).messages
        = [userMsg "hi"]
    ∧ (handleSend ⟨"123456", [], "hi", false, ""⟩ (.ok none)).messages
        ≠ ([] : Transcript)
    ∧ ¬ (∃ u a : Message,
          (handleSend ⟨"123456", [], "hi", false, ""⟩ (.ok none)).messages
            = [] ++ [u, a]) := by
  refine ⟨by decide, by decide, ?_⟩
  rintro ⟨u, a, hua⟩
  have h0 : (handleSend ⟨"123456", [], "hi", false, ""⟩ (.ok none)).messages
      = [userMsg "hi"] := by decide
  rw [h0] at hua
  simp [userMsg] at hua

/-- C2 amended: once the operation settles, on any failure the transcript
equals exactly its pre-call value; on success it equals the
backend-returned history when one is present, and the pre-call transcript
plus the one user message when the `history` field is absent — so it is
extended by exactly one user+assistant pair precisely when the backend
returns the pre-call transcript plus such a pair. -/
theorem C2_settles_amended (s : ChatState) (o : FetchOutcome)
    (h : sendBlocked s = false) :
    ((o = .exn ∨ ∃ status, o = .httpError status) →
        (handleSend s o).messages = s.messages)
    ∧ (∀ hist, o = .ok (some hist) → (handleSend s o).messages = hist)
    ∧ (o = .ok none →
        (handleSend s o).messages = s.messages ++ [userMsg s.input]) := by
  refine ⟨?_, ?_, ?_⟩
  · rintro (rfl | ⟨status, rfl⟩) <;> simp [handleSend, h]
  · rintro hist rfl
    rcases hgl : hist.getLast? with _ | m
    · simp [handleSend, h, hgl]
    · by_cases hr : m.role = "assistant" <;> simp [handleSend, h, hgl, hr]
  · rintro rfl
    have hl : (s.messages ++ [userMsg s.input]).getLast? = some (userMsg s.input) :=
      List.getLast?_concat _
    simp [handleSend, h, hl, userMsg]

theorem C2_settles_amended_witness :
    (handleSend ⟨"123456", [], "hi", false, ""⟩ (.ok none)).messages
      = [] ++ [userMsg "hi"] :=
  (C2_settles_amended ⟨"123456", [], "hi", false, ""⟩ (.ok none) (by decide)).2.2 rfl

/-- C3: on a success whose response history ends in an assistant message,
the settled transcript equals the backend-returned transcript exactly, and
the last transcript rendered by the animation sequence is that same
authoritative transcript. -/
theorem C3_roundtrip (s : ChatState) (hist : Transcript) (m : Message)
    (h : sendBlocked s = false) (hl : hist.getLast? = some m)
    (hr : m.role = "assistant") :
    (handleSend s (.ok (some hist))).messages = hist
    ∧ (sendTrace s (.ok (some hist))).getLast? = some hist := by
  constructor
  · simp [handleSend, h, hl, hr]
  · have htr : sendTrace s (.ok (some hist))
        = ((s.messages ++ [userMsg s.input])
            :: ((s.messages ++ [userMsg s.input]) ++ [⟨"assistant", ""⟩])
            :: typingStates (s.messages ++ [userMsg s.input]) m.content)
          ++ [hist] := by
      simp [sendTrace, h, hl, hr]
    rw [htr, List.getLast?_concat]

theorem C3_roundtrip_witness :
    (handleSend ⟨"123456", [], "hi", false, ""⟩
        (.ok (some [⟨"user", "hi"⟩, ⟨"assistant", "ok"⟩]))).messages
      = [⟨"user", "hi"⟩, ⟨"assistant", "ok"⟩]
    ∧ (sendTrace ⟨"123456", [], "hi", false, ""⟩
        (.ok (some [⟨"user", "hi"⟩, ⟨"assistant", "ok"⟩]))).getLast?
      = some [⟨"user", "hi"⟩, ⟨"assistant", "ok"⟩] :=
  C3_roundtrip ⟨"123456", [], "hi", false, ""⟩
    [⟨"user", "hi"⟩, ⟨"assistant", "ok"⟩] ⟨"assistant", "ok"⟩
    (by decide) (by decide) rfl

/-- C8 as stated is false: on a success whose response history does not
end in an assistant message (here `history = []`), `handleSend` returns
before reaching `setInput("")`, so the input field is not cleared even
though the request succeeded. -/
theorem C8_input_cleared_counterexample :
    (handleSend ⟨"123456", [], "hi", false, ""⟩ (.ok (some []))).input = "hi"
    ∧ ("hi" : String) ≠ "" := by
  exact ⟨by decide, by decide⟩

/-- C8 amended: when the guard passes, the input field is cleared if and
only if the request succeeds and the response transcript's last entry is
an assistant message (the path that starts the animation); on every other
path — failures and successes without a trailing assistant message — the
input field is unchanged. -/
theorem C8_input_cleared_amended (s : ChatState) (o : FetchOutcome)
    (h : sendBlocked s = false) :
    ((handleSend s o).input = "" ↔ animationRuns s o = true)
    ∧ (animationRuns s o = false → (handleSend s o).input = s.input) := by
  have hin : s.input ≠ "" := by
    intro he
    rw [sendBlocked, he] at h
    simp [jsTrim] at h
  cases o with
  | exn => simp [handleSend, animationRuns, h, hin]
  | httpError status => simp [handleSend, animationRuns, h, hin]
  | ok history =>
    rcases hgl : (history.getD (s.messages ++ [userMsg s.input])).getLast?
      with _ | m
    · simp [handleSend, animationRuns, h, hgl, hin]
    · by_cases hr : m.role = "assistant" <;>
        simp [handleSend, animationRuns, h, hgl, hr, hin]

theorem C8_input_cleared_amended_witness :
    (handleSend ⟨"123456", [], "hi", false, ""⟩
        (.ok (some [⟨"user", "hi"⟩, ⟨"assistant", "yo"⟩]))).input = "" :=
  (C8_input_cleared_amended ⟨"123456", [], "hi", false, ""⟩
      (.ok (some [⟨"user", "hi"⟩, ⟨"assistant", "yo"⟩])) (by decide)).1.mpr
    (by decide)

/-- C10: at animation tick `i` the displayed transcript is the optimistic
transcript plus an in-progress assistant message holding exactly the first
`i + 1` characters of the target text — so its content is a prefix of the
final text, its length grows by exactly one per tick (one new character of
the target, in order), and all earlier transcript entries are unchanged. -/
theorem C10_typing_tick (optimistic : Transcript) (fullText : String)
    (i : Nat) (h : i < (typingStates optimistic fullText).length) :
    (typingStates optimistic fullText).get ⟨i, h⟩
        = optimistic ++ [⟨"assistant", typedContent fullText (i + 1)⟩]
    ∧ (typedContent fullText (i + 1)).data.length = i + 1
    ∧ (∃ c : Char, fullText.data.get? i = some c
        ∧ (typedContent fullText (i + 1)).data
            = (typedContent fullText i).data ++ [c])
    ∧ (∃ rest, fullText.data = (typedContent fullText (i + 1)).data ++ rest)
    ∧ ((typingStates optimistic fullText).get ⟨i, h⟩).take optimistic.length
        = optimistic := by
  have hlen : (typingStates optimistic fullText).length
      = fullText.data.length := by
    simp [typingStates]
  have hi : i < fullText.data.length := hlen ▸ h
  have h1 : (typingStates optimistic fullText).get ⟨i, h⟩
      = optimistic ++ [⟨"assistant", typedContent fullText (i + 1)⟩] := by
    simp [typingStates, List.get_eq_getElem]
  refine ⟨h1, ?_, ?_, ?_, ?_⟩
  · show (fullText.data.take (i + 1)).length = i + 1
    rw [List.length_take]
    omega
  · refine ⟨fullText.data.get ⟨i, hi⟩, List.get?_eq_get hi, ?_⟩
    simp [typedContent, List.take_succ, List.get?_eq_get hi]
  · exact ⟨fullText.data.drop (i + 1),
      (List.take_append_drop (i + 1) fullText.data).symm⟩
  · rw [h1]
    exact List.take_left optimistic _

theorem C10_typing_tick_witness :
    (typingStates [userMsg "hi"] "ok").get ⟨0, by decide⟩
      = [userMsg "hi"] ++ [⟨"assistant", typedContent "ok" 1⟩] :=
  (C10_typing_tick [userMsg "hi"] "ok" 0 (by decide)).1
